import Mathlib

/-!
Verification of the body-measure athletic-test core.

The JavaScript source is embedded shallowly:

* JS numbers are modelled by an arbitrary `LinearOrderedField α` wherever the
  source only adds, subtracts, multiplies, divides and compares (the concrete
  instantiations used below are `ℚ`, on which every statement is decidable,
  and `ℝ`); `Math.sqrt` forces `ℝ` (`Real.sqrt`), so the two functions that
  call it (`LinesCalibrator.calculateCalibrationParams` and
  `SpeedSmoother.addPosition`) are embedded over `ℝ` only.
* Mutable class instances become state records; a mutating method becomes a
  function from the old state to the new one (returning the method's result
  alongside where it has one).  A method that `throw`s becomes
  `Except String`.
* `setTimeout`/callbacks/`console` are external: the scheduled
  `finalizeMeasurement` of the broad-jump test is modelled by the field
  `finalizationTimer` holding the captured `scale` argument, and firing the
  timer is applying `finalizeMeasurement` to the state; `onX` callbacks,
  logging, the `Date.now()` result timestamp, DOM/canvas and `localStorage`
  plumbing carry no algorithmic content and are not modelled.
-/

/-- A 2-D point, `{x, y}` in the source. -/
structure Point2 (α : Type) where
  x : α
  y : α
deriving DecidableEq

/-- A line given by two endpoints, the `line` objects `{p1, p2}` of the
source. -/
structure Line2 (α : Type) where
  p1 : Point2 α
  p2 : Point2 α
deriving DecidableEq

/-- Result record of `EventDetector.lineSegmentIntersection`. -/
structure IntersectionResult (α : Type) where
  intersects : Bool
  t : α
  u : α
deriving DecidableEq

/-- Result record of `EventDetector.checkLineCrossing`. -/
structure CheckResult (α : Type) where
  crossed : Bool
  tFraction : α
deriving DecidableEq

/-- Result record of `EventDetector.detectLineCrossing`. -/
structure LineCrossing (α : Type) where
  crossed : Bool
  time : α
  position : Point2 α
  tFraction : α
deriving DecidableEq

/-- Result record of `EventDetector.detectVerticalLineCrossing` and
`detectHorizontalLineCrossing` (those also report a `direction` string). -/
structure AxisCrossing (α : Type) where
  crossed : Bool
  time : α
  position : Point2 α
  tFraction : α
  direction : String
deriving DecidableEq

/-- A tracked object's last seen `{position, timestamp}`. -/
structure TrackedData (α : Type) where
  position : Point2 α
  timestamp : α
deriving DecidableEq

/-- `EventDetector`: its only state is the `previousPositions` map, keyed by
object id.  The JS `Map` is modelled as an association list (insertion
order preserved, one entry per key). -/
structure EventDetector (α : Type) where
  previousPositions : List (String × TrackedData α)
deriving DecidableEq

namespace EventDetector

variable {α : Type} [LinearOrderedField α]

/-- `Map.get` on the association list modelling `previousPositions`. -/
def getPos (m : List (String × TrackedData α)) (objectId : String) :
    Option (TrackedData α) :=
  match m with
  | [] => none
  | (k, v) :: rest => if k = objectId then some v else getPos rest objectId

/-- `Map.set` on the association list: overwrite the entry for the key when
present (keeping its place), append otherwise. -/
def setPos (m : List (String × TrackedData α)) (objectId : String)
    (data : TrackedData α) : List (String × TrackedData α) :=
  match m with
  | [] => [(objectId, data)]
  | (k, v) :: rest =>
      if k = objectId then (k, data) :: rest
      else (k, v) :: setPos rest objectId data

/-- `Map.delete` on the association list. -/
def delPos (m : List (String × TrackedData α)) (objectId : String) :
    List (String × TrackedData α) :=
  match m with
  | [] => []
  | (k, v) :: rest =>
      if k = objectId then rest else (k, v) :: delPos rest objectId

/-- `lineSegmentIntersection(p1, p2, p3, p4)`: the 2×2 cross-ratio system.
`1 / 10 ^ 10` is the source's `1e-10` near-parallel threshold. -/
def lineSegmentIntersection (p1 p2 p3 p4 : Point2 α) : IntersectionResult α :=
  let x1 := p1.x; let y1 := p1.y
  let x2 := p2.x; let y2 := p2.y
  let x3 := p3.x; let y3 := p3.y
  let x4 := p4.x; let y4 := p4.y
  let denom := (x1 - x2) * (y3 - y4) - (y1 - y2) * (x3 - x4)
  if |denom| < 1 / 10 ^ 10 then
    -- Lines are parallel
    { intersects := false, t := 0, u := 0 }
  else
    let t := ((x1 - x3) * (y3 - y4) - (y1 - y3) * (x3 - x4)) / denom
    let u := -((x1 - x2) * (y1 - y3) - (y1 - y2) * (x1 - x3)) / denom
    { intersects := true, t := t, u := u }

/-- `checkLineCrossing(p1, p2, line)`: a crossing needs both parameters in
`[0, 1]`. -/
def checkLineCrossing (p1 p2 : Point2 α) (line : Line2 α) : CheckResult α :=
  let result := lineSegmentIntersection p1 p2 line.p1 line.p2
  if result.intersects = false then { crossed := false, tFraction := 0 }
  else if 0 ≤ result.t ∧ result.t ≤ 1 ∧ 0 ≤ result.u ∧ result.u ≤ 1 then
    { crossed := true, tFraction := result.t }
  else { crossed := false, tFraction := 0 }

/-- `detectLineCrossing(prevPos, currPos, line, prevTime, currTime)`.  The JS
null-argument guard is subsumed by the argument types; `null` results are
`none`. -/
def detectLineCrossing (prevPos currPos : Point2 α) (line : Line2 α)
    (prevTime currTime : α) : Option (LineCrossing α) :=
  let crossing := checkLineCrossing prevPos currPos line
  if crossing.crossed = false then none
  else
    let tFraction := crossing.tFraction
    let crossingTime := prevTime + (currTime - prevTime) * tFraction
    let crossingPos : Point2 α :=
      { x := prevPos.x + (currPos.x - prevPos.x) * tFraction,
        y := prevPos.y + (currPos.y - prevPos.y) * tFraction }
    some { crossed := true, time := crossingTime, position := crossingPos,
           tFraction := tFraction }

/-- `detectVerticalLineCrossing(prevPos, currPos, lineX, prevTime,
currTime)`. -/
def detectVerticalLineCrossing (prevPos currPos : Point2 α) (lineX : α)
    (prevTime currTime : α) : Option (AxisCrossing α) :=
  let prevSide := decide (prevPos.x < lineX)
  let currSide := decide (currPos.x < lineX)
  if prevSide = currSide then none -- No crossing
  else
    let dx := currPos.x - prevPos.x
    if |dx| < 1 / 10 ^ 10 then none -- No movement in x
    else
      let tFraction := (lineX - prevPos.x) / dx
      if tFraction < 0 ∨ 1 < tFraction then none
      else
        let crossingTime := prevTime + (currTime - prevTime) * tFraction
        let crossingY := prevPos.y + (currPos.y - prevPos.y) * tFraction
        some { crossed := true, time := crossingTime,
               position := { x := lineX, y := crossingY },
               tFraction := tFraction,
               direction := if prevPos.x < currPos.x then "right" else "left" }

/-- `detectHorizontalLineCrossing(prevPos, currPos, lineY, prevTime,
currTime)`. -/
def detectHorizontalLineCrossing (prevPos currPos : Point2 α) (lineY : α)
    (prevTime currTime : α) : Option (AxisCrossing α) :=
  let prevSide := decide (prevPos.y < lineY)
  let currSide := decide (currPos.y < lineY)
  if prevSide = currSide then none -- No crossing
  else
    let dy := currPos.y - prevPos.y
    if |dy| < 1 / 10 ^ 10 then none -- No movement in y
    else
      let tFraction := (lineY - prevPos.y) / dy
      if tFraction < 0 ∨ 1 < tFraction then none
      else
        let crossingTime := prevTime + (currTime - prevTime) * tFraction
        let crossingX := prevPos.x + (currPos.x - prevPos.x) * tFraction
        some { crossed := true, time := crossingTime,
               position := { x := crossingX, y := lineY },
               tFraction := tFraction,
               direction := if prevPos.y < currPos.y then "down" else "up" }

/-- `trackPosition(objectId, position, timestamp)`: stores the current sample
and returns what was previously stored for the id (`none` first time). -/
def trackPosition (d : EventDetector α) (objectId : String)
    (position : Point2 α) (timestamp : α) :
    EventDetector α × Option (TrackedData α) :=
  let prevData := getPos d.previousPositions objectId
  ({ previousPositions :=
       setPos d.previousPositions objectId
         { position := position, timestamp := timestamp } },
   prevData)

/-- `clearTracking(objectId = null)`: one id, or everything when none is
given. -/
def clearTracking (d : EventDetector α) (objectId : Option String) :
    EventDetector α :=
  match objectId with
  | some objId => { previousPositions := delPos d.previousPositions objId }
  | none => { previousPositions := [] }

/-- `detectLanding(prevPos, currPos, groundY, minVerticalSpeed)`: downward
crossing of the ground level at or above the speed threshold. -/
def detectLanding (prevPos currPos : Point2 α) (groundY minVerticalSpeed : α) :
    Bool :=
  let verticalSpeed := currPos.y - prevPos.y
  let crossedGround := decide (prevPos.y < groundY) &&
    decide (groundY ≤ currPos.y)
  crossedGround && decide (minVerticalSpeed ≤ verticalSpeed)

/-- `detectTakeoff(prevPos, currPos, groundY, minVerticalSpeed)`: upward
leaving of the ground level at or above the speed threshold (negative y is
up). -/
def detectTakeoff (prevPos currPos : Point2 α) (groundY minVerticalSpeed : α) :
    Bool :=
  let verticalSpeed := prevPos.y - currPos.y
  let leftGround := decide (groundY ≤ prevPos.y) &&
    decide (currPos.y < groundY)
  leftGround && decide (minVerticalSpeed ≤ verticalSpeed)

end EventDetector

/-- `SmoothingFilter`: a bounded FIFO of recent samples. -/
structure SmoothingFilter (α : Type) where
  windowSize : ℕ
  dataBuffer : List α
deriving DecidableEq

namespace SmoothingFilter

variable {α : Type} [LinearOrderedField α]

/-- `getSmoothedValue()`: `0` on an empty buffer, else the arithmetic mean of
the buffer. -/
def getSmoothedValue (f : SmoothingFilter α) : α :=
  if f.dataBuffer.length = 0 then 0
  else f.dataBuffer.sum / (f.dataBuffer.length : α)

/-- `addValue(value)`: push, shift once the window size is exceeded, return
the smoothed value of the resulting buffer (new state alongside). -/
def addValue (f : SmoothingFilter α) (value : α) : SmoothingFilter α × α :=
  let buffer := f.dataBuffer ++ [value]
  let buffer := if f.windowSize < buffer.length then buffer.tail else buffer
  let f' : SmoothingFilter α := { f with dataBuffer := buffer }
  (f', f'.getSmoothedValue)

/-- `reset()`. -/
def reset (f : SmoothingFilter α) : SmoothingFilter α :=
  { f with dataBuffer := [] }

/-- Feeding a whole stream through `addValue`, collecting each returned
smoothed value (the per-frame driver loop of the source). -/
def run (f : SmoothingFilter α) : List α → SmoothingFilter α × List α
  | [] => (f, [])
  | v :: vs =>
      let r := f.addValue v
      let rest := r.1.run vs
      (rest.1, r.2 :: rest.2)

end SmoothingFilter

/-- One `{time, speed, position}` entry of `SpeedSmoother.speedHistory`. -/
structure SpeedSample (α : Type) where
  time : α
  speed : α
  position : Point2 α
deriving DecidableEq

/-- `SpeedSmoother`: position filter, speed filter, last smoothed sample,
running maximum and full history. -/
structure SpeedSmoother (α : Type) where
  positionFilter : SmoothingFilter α
  speedFilter : SmoothingFilter α
  previousPosition : Option (Point2 α)
  previousTime : Option α
  maxSpeed : α
  speedHistory : List (SpeedSample α)
deriving DecidableEq

namespace SpeedSmoother

/-- `new SpeedSmoother(windowSize)`. -/
def init {α : Type} [LinearOrderedField α] (windowSize : ℕ) :
    SpeedSmoother α :=
  { positionFilter := { windowSize := windowSize, dataBuffer := [] },
    speedFilter := { windowSize := windowSize, dataBuffer := [] },
    previousPosition := none, previousTime := none,
    maxSpeed := 0, speedHistory := [] }

/-- The `speed` local of `addPosition`: Euclidean displacement between the
smoothed current and previous position over elapsed time, and `0` when there
is no previous sample or the elapsed time is not positive.  The source guard
is `if (this.previousPosition && this.previousTime)`, so a stored
`previousTime` of `0` (falsy in JS) also leaves the speed at `0`. -/
noncomputable def instSpeed (s : SpeedSmoother ℝ) (smoothedPosition : Point2 ℝ)
    (timestamp : ℝ) : ℝ :=
  match s.previousPosition, s.previousTime with
  | some prevPos, some prevTime =>
      if prevTime ≠ 0 then
        let dt := timestamp - prevTime
        if 0 < dt then
          let dx := smoothedPosition.x - prevPos.x
          let dy := smoothedPosition.y - prevPos.y
          Real.sqrt (dx * dx + dy * dy) / dt
        else 0
      else 0
  | _, _ => 0

/-- `addPosition(position, timestamp)`: smooth `x`, derive the instantaneous
speed, smooth it, track the maximum, append to the history, store the sample
as previous, and return the smoothed speed. -/
noncomputable def addPosition (s : SpeedSmoother ℝ) (position : Point2 ℝ)
    (timestamp : ℝ) : SpeedSmoother ℝ × ℝ :=
  let pf := s.positionFilter.addValue position.x
  let smoothedPosition : Point2 ℝ := { x := pf.2, y := position.y }
  let speed := s.instSpeed smoothedPosition timestamp
  let sf := s.speedFilter.addValue speed
  let smoothedSpeed := sf.2
  let maxSpeed' := if s.maxSpeed < smoothedSpeed then smoothedSpeed
                   else s.maxSpeed
  ({ positionFilter := pf.1, speedFilter := sf.1,
     previousPosition := some smoothedPosition,
     previousTime := some timestamp,
     maxSpeed := maxSpeed',
     speedHistory := s.speedHistory ++
       [{ time := timestamp, speed := smoothedSpeed,
          position := smoothedPosition }] },
   smoothedSpeed)

/-- `getMaxSpeed()`. -/
def getMaxSpeed {α : Type} (s : SpeedSmoother α) : α := s.maxSpeed

/-- `getSpeedHistory()` (the copy the source takes is identity here). -/
def getSpeedHistory {α : Type} (s : SpeedSmoother α) : List (SpeedSample α) :=
  s.speedHistory

/-- `reset()`. -/
def reset {α : Type} [LinearOrderedField α] (s : SpeedSmoother α) :
    SpeedSmoother α :=
  { positionFilter := s.positionFilter.reset,
    speedFilter := s.speedFilter.reset,
    previousPosition := none, previousTime := none,
    maxSpeed := 0, speedHistory := [] }

end SpeedSmoother

/-- One `{speed, timestamp}` entry of `AccelerationCalculator.speedHistory`. -/
structure SpeedEntry (α : Type) where
  speed : α
  timestamp : α
deriving DecidableEq

/-- `AccelerationCalculator`: a bounded FIFO of recent speed samples. -/
structure AccelerationCalculator (α : Type) where
  windowSize : ℕ
  speedHistory : List (SpeedEntry α)
deriving DecidableEq

namespace AccelerationCalculator

variable {α : Type} [LinearOrderedField α]

/-- `calculateAcceleration()`: two-point finite difference of the two most
recent of the last `min(length, windowSize)` samples, `0` when fewer than two
samples exist or the elapsed time is not positive. -/
def calculateAcceleration (a : AccelerationCalculator α) : α :=
  if a.speedHistory.length < 2 then 0
  else
    let n := min a.speedHistory.length a.windowSize
    let recentData := a.speedHistory.drop (a.speedHistory.length - n)
    if recentData.length < 2 then 0
    else
      match recentData.get? (recentData.length - 1),
            recentData.get? (recentData.length - 2) with
      | some latest, some previous =>
          let dt := latest.timestamp - previous.timestamp
          if dt ≤ 0 then 0
          else (latest.speed - previous.speed) / dt
      | _, _ => 0

/-- `addSpeed(speed, timestamp)`: push, shift once `windowSize * 2` is
exceeded, return the current acceleration (new state alongside). -/
def addSpeed (a : AccelerationCalculator α) (speed timestamp : α) :
    AccelerationCalculator α × α :=
  let history := a.speedHistory ++ [{ speed := speed, timestamp := timestamp }]
  let history := if a.windowSize * 2 < history.length then history.tail
                 else history
  let a' : AccelerationCalculator α := { a with speedHistory := history }
  (a', a'.calculateAcceleration)

/-- `reset()`. -/
def reset (a : AccelerationCalculator α) : AccelerationCalculator α :=
  { a with speedHistory := [] }

end AccelerationCalculator

/-- The derived `calibrationParams` record of `LinesCalibrator`. -/
structure CalibParams (α : Type) where
  origin : Point2 α
  direction : Point2 α
  metersPerPixel : α
  originMeterValue : α
deriving DecidableEq

/-- `LinesCalibrator` state: collected click points, their meter values and
the derived projection parameters.  The canvas/click-handler and
`localStorage` plumbing of the source is I/O glue and is not modelled. -/
structure LinesCalibrator (α : Type) where
  calibrationPoints : List (Point2 α)
  meterValues : List α
  isCalibrating : Bool
  calibrationParams : Option (CalibParams α)
deriving DecidableEq

namespace LinesCalibrator

/-- `calculateCalibrationParams()`: the projection is computed from the first
and last collected points only.  `Math.sqrt` makes this `ℝ`-specific.  When
fewer than two points were collected the method returns without storing
parameters; the collinearity check of the source only logs a warning and has
no state effect.  (The impossible fall-through where points exist but meter
values do not is the identity, where the source would store NaN
parameters.) -/
noncomputable def calculateCalibrationParams (c : LinesCalibrator ℝ) :
    LinesCalibrator ℝ :=
  if c.calibrationPoints.length < 2 then c
  else
    match c.calibrationPoints.head?, c.calibrationPoints.getLast?,
          c.meterValues.head?, c.meterValues.getLast? with
    | some p1, some p2, some m1, some m2 =>
        let dx := p2.x - p1.x
        let dy := p2.y - p1.y
        let lineLength := Real.sqrt (dx * dx + dy * dy)
        let metersPerPixel := (m2 - m1) / lineLength
        let params : CalibParams ℝ :=
          { origin := p1,
            direction := { x := dx / lineLength, y := dy / lineLength },
            metersPerPixel := metersPerPixel,
            originMeterValue := m1 }
        { c with calibrationParams := some params }
    | _, _, _, _ => c

variable {α : Type} [LinearOrderedField α]

/-- `projectPxToM(point)`: signed scalar projection onto the calibration
direction, scaled and offset; `null` without calibration parameters. -/
def projectPxToM (c : LinesCalibrator α) (point : Point2 α) : Option α :=
  match c.calibrationParams with
  | none => none
  | some params =>
      let dx := point.x - params.origin.x
      let dy := point.y - params.origin.y
      let projection := dx * params.direction.x + dy * params.direction.y
      some (params.originMeterValue + projection * params.metersPerPixel)

/-- `projectMToPx(meters)`: the inverse mapping along the line. -/
def projectMToPx (c : LinesCalibrator α) (meters : α) : Option (Point2 α) :=
  match c.calibrationParams with
  | none => none
  | some params =>
      let pixelDistance := (meters - params.originMeterValue) /
        params.metersPerPixel
      some { x := params.origin.x + pixelDistance * params.direction.x,
             y := params.origin.y + pixelDistance * params.direction.y }

/-- `getDistanceInMeters(point1, point2)`: absolute difference of the two
projected meter values; `null` without calibration parameters. -/
def getDistanceInMeters (c : LinesCalibrator α) (point1 point2 : Point2 α) :
    Option α :=
  match c.calibrationParams with
  | none => none
  | some _ =>
      match c.projectPxToM point1, c.projectPxToM point2 with
      | some meters1, some meters2 => some |meters2 - meters1|
      | _, _ => none

end LinesCalibrator

/-- One body landmark `{x, y, visibility}` in normalized image coordinates.
`visibility` is `Option` because the source checks
`landmark.visibility !== undefined`. -/
structure Landmark (α : Type) where
  x : α
  y : α
  visibility : Option α
deriving DecidableEq

namespace PoseDetector

/-- The `landmarkIndices` table of `getLandmarkByName`. -/
def landmarkIndices (landmarkName : String) : Option ℕ :=
  match landmarkName with
  | "nose" => some 0
  | "left_eye_inner" => some 1
  | "left_eye" => some 2
  | "left_eye_outer" => some 3
  | "right_eye_inner" => some 4
  | "right_eye" => some 5
  | "right_eye_outer" => some 6
  | "left_ear" => some 7
  | "right_ear" => some 8
  | "mouth_left" => some 9
  | "mouth_right" => some 10
  | "left_shoulder" => some 11
  | "right_shoulder" => some 12
  | "left_elbow" => some 13
  | "right_elbow" => some 14
  | "left_wrist" => some 15
  | "right_wrist" => some 16
  | "left_pinky" => some 17
  | "right_pinky" => some 18
  | "left_index" => some 19
  | "right_index" => some 20
  | "left_thumb" => some 21
  | "right_thumb" => some 22
  | "left_hip" => some 23
  | "right_hip" => some 24
  | "left_knee" => some 25
  | "right_knee" => some 26
  | "left_ankle" => some 27
  | "right_ankle" => some 28
  | "left_heel" => some 29
  | "right_heel" => some 30
  | "left_foot_index" => some 31
  | "right_foot_index" => some 32
  | _ => none

/-- `getLandmarkByName(landmarks, landmarkName)`: index lookup into the
landmark array (`null` for an unknown name or an out-of-range index). -/
def getLandmarkByName {α : Type} (landmarks : List (Landmark α))
    (landmarkName : String) : Option (Landmark α) :=
  match landmarkIndices landmarkName with
  | none => none
  | some index => landmarks.get? index

/-- `validateLandmark(landmark, minVisibility = 0.5)`: present, visibility
defined and at least the minimum, normalized coordinates within `[0, 1]`. -/
def validateLandmark {α : Type} [LinearOrderedField α]
    (landmark : Option (Landmark α)) (minVisibility : α) : Bool :=
  match landmark with
  | none => false
  | some lm =>
      match lm.visibility with
      | none => false
      | some vis =>
          decide (minVisibility ≤ vis) &&
          decide (0 ≤ lm.x) && decide (lm.x ≤ 1) &&
          decide (0 ≤ lm.y) && decide (lm.y ≤ 1)

end PoseDetector

/-- The per-frame `scale` descriptor handed to `processFrame`. -/
structure Scale (α : Type) where
  imageWidth : α
  imageHeight : α
  cmPerPx : α
deriving DecidableEq

/-- The fields of `BaseAthleticTest` shared by every test controller
(`ρ` is the subclass's result record type). -/
structure BaseAthleticTest (α ρ : Type) where
  testType : String
  isRunning : Bool
  isCalibrated : Bool
  startTime : Option α
  results : Option ρ
deriving DecidableEq

namespace BaseAthleticTest

variable {α ρ : Type} [LinearOrderedField α]

/-- `startTest()`: throws `Test must be calibrated first` when not
calibrated (the JS throw happens before any assignment, so the caller's
state is the unchanged input); otherwise sets the running flag, records
`performance.now()` (the `now` argument) and clears previous results. -/
def startTest (t : BaseAthleticTest α ρ) (now : α) :
    Except String (BaseAthleticTest α ρ) :=
  if t.isCalibrated = false then Except.error "Test must be calibrated first"
  else Except.ok
    { t with isRunning := true, startTime := some now, results := none }

/-- `stopTest()`. -/
def stopTest (t : BaseAthleticTest α ρ) : BaseAthleticTest α ρ :=
  { t with isRunning := false }

/-- `resetTest()` of the base class: clears the run state (not the
calibration flag). -/
def resetTest (t : BaseAthleticTest α ρ) : BaseAthleticTest α ρ :=
  { t with isRunning := false, startTime := none, results := none }

end BaseAthleticTest

/-- The `results` record built by `BroadJumpTest.finalizeMeasurement` (the
`Date.now()` creation timestamp is external and not modelled). -/
structure BroadJumpResults (α : Type) where
  distance : α
  takeoffSpeed : α
  jumpTime : α
  takeoffPosition : Point2 α
  landingPosition : Point2 α
deriving DecidableEq

/-- `BroadJumpTest` state.  `finalizationTimer` models the pending
`setTimeout(() => this.finalizeMeasurement(scale), 1000)`: it holds the
captured `scale` while the timer is armed. -/
structure BroadJumpTest (α : Type) extends
    BaseAthleticTest α (BroadJumpResults α) where
  linesCalibrator : LinesCalibrator α
  eventDetector : EventDetector α
  landingDetected : Bool
  landingTime : Option α
  takeoffPosition : Option (Point2 α)
  landingPosition : Option (Point2 α)
  finalizationTimer : Option (Scale α)
deriving DecidableEq

namespace BroadJumpTest

variable {α : Type} [LinearOrderedField α]

/-- `startTest()` as inherited from `BaseAthleticTest`. -/
def startTest (t : BroadJumpTest α) (now : α) :
    Except String (BroadJumpTest α) :=
  (t.toBaseAthleticTest.startTest now).map
    fun b => { t with toBaseAthleticTest := b }

/-- `processFrame(landmarks, timestamp, scale)`: average the two ankle
landmarks, scale to pixels, track the position, and run the takeoff then the
landing detector against the assumed ground level
`scale.imageHeight * 0.8` with minimum vertical speed `2`; a landing arms the
finalization timer.  A missing or low-confidence frame is skipped. -/
def processFrame (t : BroadJumpTest α)
    (landmarks : Option (List (Landmark α))) (timestamp : α)
    (scale : Scale α) : BroadJumpTest α :=
  if t.isRunning = false ∨ landmarks = none then t
  else
    match landmarks with
    | none => t
    | some lms =>
        let leftFoot := PoseDetector.getLandmarkByName lms "left_ankle"
        let rightFoot := PoseDetector.getLandmarkByName lms "right_ankle"
        if PoseDetector.validateLandmark leftFoot (1 / 2) = false ∨
           PoseDetector.validateLandmark rightFoot (1 / 2) = false then t
        else
          match leftFoot, rightFoot with
          | some lf, some rf =>
              let footPosition : Point2 α :=
                { x := (lf.x + rf.x) / 2, y := (lf.y + rf.y) / 2 }
              let pixelPosition : Point2 α :=
                { x := footPosition.x * scale.imageWidth,
                  y := footPosition.y * scale.imageHeight }
              let tracked := t.eventDetector.trackPosition "jumper"
                pixelPosition timestamp
              let t := { t with eventDetector := tracked.1 }
              match tracked.2 with
              | none => t
              | some prevData =>
                  -- Detect takeoff (leaving ground)
                  let t :=
                    if t.takeoffPosition = none then
                      if EventDetector.detectTakeoff prevData.position
                          pixelPosition (scale.imageHeight * (8 / 10)) 2 then
                        { t with takeoffPosition := some pixelPosition }
                      else t
                    else t
                  -- Detect landing (only after takeoff)
                  if t.takeoffPosition ≠ none ∧ t.landingDetected = false then
                    if EventDetector.detectLanding prevData.position
                        pixelPosition (scale.imageHeight * (8 / 10)) 2 then
                      { t with landingDetected := true,
                               landingTime := some timestamp,
                               landingPosition := some pixelPosition,
                               finalizationTimer := some scale }
                    else t
                  else t
          | _, _ => t

/-- `finalizeMeasurement(scale)`: along-line calibrated distance between the
takeoff and landing pixel positions; `jumpTime = landingTime - startTime`
(the test's start, `performance.now()` at `startTest`), `takeoffSpeed =
distance / (jumpTime / 1000)`; then `stopTest()`.  A JS `null` in the
subtraction coerces to `0`, hence `Option.getD 0`.  The captured `scale`
argument is unused by the source body. -/
def finalizeMeasurement (t : BroadJumpTest α) (_scale : Scale α) :
    BroadJumpTest α :=
  match t.takeoffPosition, t.landingPosition with
  | some takeoffPos, some landingPos =>
      match t.linesCalibrator.getDistanceInMeters takeoffPos landingPos with
      | none => t -- Failed to calculate jump distance
      | some distance =>
          let jumpTime := t.landingTime.getD 0 - t.startTime.getD 0
          let takeoffSpeed := distance / (jumpTime / 1000)
          let results : BroadJumpResults α :=
            { distance := distance, takeoffSpeed := takeoffSpeed,
              jumpTime := jumpTime, takeoffPosition := takeoffPos,
              landingPosition := landingPos }
          let t := { t with results := some results }
          { t with isRunning := false }
  | _, _ => t -- Missing takeoff or landing position

/-- `resetTest()`: `super.resetTest()`, clear the jump event fields, cancel
the pending finalization timer and clear all tracked positions. -/
def resetTest (t : BroadJumpTest α) : BroadJumpTest α :=
  { t with toBaseAthleticTest := t.toBaseAthleticTest.resetTest,
           landingDetected := false,
           landingTime := none,
           takeoffPosition := none,
           landingPosition := none,
           finalizationTimer := none,
           eventDetector := t.eventDetector.clearTracking none }

end BroadJumpTest

/-- The `crossingTimes` record of `SprintTest`. -/
structure CrossingTimes (α : Type) where
  t0 : Option α
  t15 : Option α
  t30 : Option α
deriving DecidableEq

/-- The `results` record built by `SprintTest.finalizeSprint` (the
`Date.now()` creation timestamp is external and not modelled). -/
structure SprintResults (α : Type) where
  split0to15 : α
  split15to30 : α
  totalTime : α
  avgSpeedTotal : α
  maxSpeed : α
  avgAccel0to15 : α
  avgAccel15to30 : α
  crossingTimes : CrossingTimes α
  speedHistory : List (SpeedSample α)
deriving DecidableEq

/-- `SprintTest` state. -/
structure SprintTest (α : Type) extends
    BaseAthleticTest α (SprintResults α) where
  linesCalibrator : LinesCalibrator α
  eventDetector : EventDetector α
  speedSmoother : SpeedSmoother α
  accelerationCalculator : AccelerationCalculator α
  crossingTimes : CrossingTimes α
  nextCrossingIndex : ℕ
deriving DecidableEq

namespace SprintTest

variable {α : Type} [LinearOrderedField α]

/-- `startTest()` as inherited from `BaseAthleticTest`. -/
def startTest (t : SprintTest α) (now : α) : Except String (SprintTest α) :=
  (t.toBaseAthleticTest.startTest now).map
    fun b => { t with toBaseAthleticTest := b }

/-- `finalizeSprint()`: convert the three recorded relative crossing times to
seconds, compute the two splits and the total, `avgSpeed = 30 / totalTime`,
the smoothed maximum, `avgAccel = 15 / split²` per split, store the result
and `stopTest()`.  A JS `null` crossing time coerces to `0` in the division,
hence `Option.getD 0`. -/
def finalizeSprint (t : SprintTest α) : SprintTest α :=
  let t0 := t.crossingTimes.t0.getD 0 / 1000 -- Convert to seconds
  let t15 := t.crossingTimes.t15.getD 0 / 1000
  let t30 := t.crossingTimes.t30.getD 0 / 1000
  let split0to15 := t15 - t0
  let split15to30 := t30 - t15
  let totalTime := t30 - t0
  let avgSpeed0to30 := 30 / totalTime
  let maxSpeed := t.speedSmoother.getMaxSpeed
  let avgAccel0to15 := 15 / (split0to15 * split0to15)
  let avgAccel15to30 := 15 / (split15to30 * split15to30)
  let results : SprintResults α :=
    { split0to15 := split0to15, split15to30 := split15to30,
      totalTime := totalTime, avgSpeedTotal := avgSpeed0to30,
      maxSpeed := maxSpeed, avgAccel0to15 := avgAccel0to15,
      avgAccel15to30 := avgAccel15to30,
      crossingTimes := t.crossingTimes,
      speedHistory := t.speedSmoother.getSpeedHistory }
  let t := { t with results := some results }
  { t with isRunning := false }

/-- `resetTest()`: `super.resetTest()`, clear crossing times and the next
crossing index, reset both filter chains and clear all tracked positions. -/
def resetTest (t : SprintTest α) : SprintTest α :=
  { t with toBaseAthleticTest := t.toBaseAthleticTest.resetTest,
           crossingTimes := { t0 := none, t15 := none, t30 := none },
           nextCrossingIndex := 0,
           speedSmoother := t.speedSmoother.reset,
           accelerationCalculator := t.accelerationCalculator.reset,
           eventDetector := t.eventDetector.clearTracking none }

end SprintTest

/-! Concrete states used below to instantiate the verified properties. -/

/-- A `scale` descriptor for a 1000×1000 image. -/
def scaleW : Scale ℚ :=
  { imageWidth := 1000, imageHeight := 1000, cmPerPx := 1 }

/-- A landmark snapshot whose two ankle landmarks (indices 27 and 28) sit at
the normalized position `(x, y)` with full visibility. -/
def ankleFrame (x y : ℚ) : List (Landmark ℚ) :=
  List.replicate 27 { x := 0, y := 0, visibility := some 1 } ++
    [{ x := x, y := y, visibility := some 1 },
     { x := x, y := y, visibility := some 1 }]

/-- A broad-jump calibration: clicks at pixels `(0,0)` and `(100,0)` for the
meter values `0` and `3`, with the derived projection parameters. -/
def calW : LinesCalibrator ℚ :=
  { calibrationPoints := [{ x := 0, y := 0 }, { x := 100, y := 0 }],
    meterValues := [0, 3],
    isCalibrating := false,
    calibrationParams := some
      { origin := { x := 0, y := 0 }, direction := { x := 1, y := 0 },
        metersPerPixel := 3 / 100, originMeterValue := 0 } }

/-- An uncalibrated `LinesCalibrator` (no derived parameters). -/
def calNone : LinesCalibrator ℚ :=
  { calibrationPoints := [], meterValues := [], isCalibrating := false,
    calibrationParams := none }

/-- The same two-click calibration before `calculateCalibrationParams`, over
`ℝ`. -/
def calR : LinesCalibrator ℝ :=
  { calibrationPoints := [{ x := 0, y := 0 }, { x := 100, y := 0 }],
    meterValues := [0, 3],
    isCalibrating := false,
    calibrationParams := none }

/-- A calibrated broad-jump test that has not been started. -/
def jumpRun0 : BroadJumpTest ℚ :=
  { testType := "broad-jump", isRunning := false, isCalibrated := true,
    startTime := none, results := none,
    linesCalibrator := calW,
    eventDetector := { previousPositions := [] },
    landingDetected := false, landingTime := none,
    takeoffPosition := none, landingPosition := none,
    finalizationTimer := none }

/-- `jumpRun0` right after `startTest` at `performance.now() = 0`. -/
def jumpRunA : BroadJumpTest ℚ :=
  { jumpRun0 with isRunning := true, startTime := some 0, results := none }

/-- After a frame at `t = 500 ms` with the ankles on the ground
(pixel `(0, 850)`, ground level `800`). -/
def jumpRunB : BroadJumpTest ℚ :=
  jumpRunA.processFrame (some (ankleFrame 0 (85 / 100))) 500 scaleW

/-- After a frame at `t = 1000 ms` with the ankles above the ground
(pixel `(0, 790)`): the takeoff event. -/
def jumpRunC : BroadJumpTest ℚ :=
  jumpRunB.processFrame (some (ankleFrame 0 (79 / 100))) 1000 scaleW

/-- After a frame at `t = 2000 ms` with the ankles back on the ground
(pixel `(100, 810)`): the landing event. -/
def jumpRunD : BroadJumpTest ℚ :=
  jumpRunC.processFrame (some (ankleFrame (1 / 10) (81 / 100))) 2000 scaleW

/-- A sprint test state holding the recorded crossing times
`t0 = 0 ms`, `t15 = 2000 ms`, `t30 = 3800 ms`. -/
def sprintW : SprintTest ℚ :=
  { testType := "sprint", isRunning := true, isCalibrated := true,
    startTime := some 0, results := none,
    linesCalibrator := calW,
    eventDetector := { previousPositions := [] },
    speedSmoother := SpeedSmoother.init 5,
    accelerationCalculator := { windowSize := 3, speedHistory := [] },
    crossingTimes := { t0 := some 0, t15 := some 2000, t30 := some 3800 },
    nextCrossingIndex := 3 }

/-- An uncalibrated base test state. -/
def baseUncal : BaseAthleticTest ℚ Unit :=
  { testType := "sprint", isRunning := false, isCalibrated := false,
    startTime := none, results := none }

/-- A calibrated base test state. -/
def baseCal : BaseAthleticTest ℚ Unit :=
  { testType := "sprint", isRunning := false, isCalibrated := true,
    startTime := none, results := none }

/-- A speed smoother whose previous sample was taken at `t = 5`. -/
noncomputable def smootherW : SpeedSmoother ℝ :=
  { positionFilter := { windowSize := 5, dataBuffer := [] },
    speedFilter := { windowSize := 5, dataBuffer := [] },
    previousPosition := some { x := 0, y := 0 },
    previousTime := some 5,
    maxSpeed := 0, speedHistory := [] }

/-! Verified properties. -/

/-- C7: `detectVerticalLineCrossing` on `prev = (5, 0)`, `curr = (15, 10)`,
`lineX = 10` and any timestamps `prevTime ≤ currTime` reports a crossing with
`tFraction = 0.5` at position `(10, 5)`, the crossing time being the midpoint
of the two timestamps; on two positions on the same side of the line
(`prev.x = 5`, `curr.x = 8`, `lineX = 10`) it returns null. -/
theorem detectVerticalLineCrossing_example :
    (∀ prevTime currTime : ℚ, prevTime ≤ currTime →
      EventDetector.detectVerticalLineCrossing ⟨5, 0⟩ ⟨15, 10⟩ 10 prevTime
          currTime =
        some { crossed := true, time := (prevTime + currTime) / 2,
               position := ⟨10, 5⟩, tFraction := 1 / 2,
               direction := "right" }) ∧
    (∀ (prevPos currPos : Point2 ℚ) (prevTime currTime : ℚ),
      prevPos.x = 5 → currPos.x = 8 →
      EventDetector.detectVerticalLineCrossing prevPos currPos 10 prevTime
        currTime = none) := by
  constructor
  · intro pt ct _
    simp only [EventDetector.detectVerticalLineCrossing]
    norm_num [AxisCrossing.mk.injEq, Point2.mk.injEq]
    ring
  · intro p c pt ct hp hc
    simp only [EventDetector.detectVerticalLineCrossing, hp, hc]
    norm_num

/-- C7, instantiated: the crossing at timestamps `0` and `10` happens at
time `5`, and the same-side pair yields no crossing. -/
theorem detectVerticalLineCrossing_example_witness :
    EventDetector.detectVerticalLineCrossing (α := ℚ) ⟨5, 0⟩ ⟨15, 10⟩
        10 0 10 =
      some { crossed := true, time := 5, position := ⟨10, 5⟩,
             tFraction := 1 / 2, direction := "right" } ∧
    EventDetector.detectVerticalLineCrossing (α := ℚ) ⟨5, 1⟩ ⟨8, 2⟩
      10 0 10 = none := by
  constructor
  · have h := detectVerticalLineCrossing_example.1 0 10 (by norm_num)
    norm_num at h
    exact h
  · exact detectVerticalLineCrossing_example.2 ⟨5, 1⟩ ⟨8, 2⟩ 0 10 rfl rfl

/-- C8: `addValue` keeps the window size, keeps exactly the last
`windowSize` samples of the stream (appending the new value and evicting the
oldest once the window is exceeded), and returns the arithmetic mean of the
resulting buffer; a filter holding one sample returns that sample; with
window `3` the inputs `1, 2, 3, 4` produce the outputs `1, 1.5, 2, 3`. -/
theorem smoothingFilter_addValue_spec :
    (∀ (f : SmoothingFilter ℚ) (v : ℚ), 1 ≤ f.windowSize →
      f.dataBuffer.length ≤ f.windowSize →
      (f.addValue v).1.windowSize = f.windowSize ∧
      (f.addValue v).1.dataBuffer =
        (f.dataBuffer ++ [v]).drop
          ((f.dataBuffer ++ [v]).length - f.windowSize) ∧
      (f.addValue v).2 =
        ((f.addValue v).1.dataBuffer).sum /
          (((f.addValue v).1.dataBuffer).length : ℚ)) ∧
    (∀ (n : ℕ) (x : ℚ),
      (SmoothingFilter.mk n [x] : SmoothingFilter ℚ).getSmoothedValue = x) ∧
    ((SmoothingFilter.mk 3 [] : SmoothingFilter ℚ).run [1, 2, 3, 4]).2 =
      [1, 3 / 2, 2, 3] := by
  refine ⟨?_, ?_, ?_⟩
  · intro f v hN hlen
    have hbuf : (f.addValue v).1.dataBuffer ≠ [] := by
      by_cases h : f.windowSize < f.dataBuffer.length + 1
      · have h1 : f.dataBuffer.length = f.windowSize := by omega
        simp only [SmoothingFilter.addValue, List.length_append,
          List.length_singleton, if_pos h]
        intro hcon
        have := congrArg List.length hcon
        simp [List.length_tail, h1] at this
        omega
      · simp only [SmoothingFilter.addValue, List.length_append,
          List.length_singleton, if_neg h]
        simp
    refine ⟨?_, ?_, ?_⟩
    · by_cases h : f.windowSize < f.dataBuffer.length + 1 <;>
        simp [SmoothingFilter.addValue, List.length_append, h]
    · by_cases h : f.windowSize < f.dataBuffer.length + 1
      · have h2 : f.dataBuffer.length + 1 - f.windowSize = 1 := by omega
        simp [SmoothingFilter.addValue, List.length_append, h, h2,
          List.drop_one]
      · have h2 : f.dataBuffer.length + 1 - f.windowSize = 0 := by omega
        simp [SmoothingFilter.addValue, List.length_append, h, h2]
    · have hlen0 : (f.addValue v).1.dataBuffer.length ≠ 0 := by
        simpa [List.length_eq_zero] using hbuf
      conv_lhs => rw [show (f.addValue v).2 =
        (f.addValue v).1.getSmoothedValue from rfl]
      rw [SmoothingFilter.getSmoothedValue, if_neg hlen0]
  · intro n x
    simp [SmoothingFilter.getSmoothedValue]
  · norm_num [SmoothingFilter.run, SmoothingFilter.addValue,
      SmoothingFilter.getSmoothedValue]

/-- C8, instantiated at a window-3 filter holding `[1, 2]` fed `7`, a filter
holding the single sample `9`, and the spec's `[1, 2, 3, 4]` stream. -/
theorem smoothingFilter_addValue_spec_witness :
    ((((SmoothingFilter.mk 3 [1, 2] : SmoothingFilter ℚ).addValue
          7).1.windowSize = 3 ∧
      ((SmoothingFilter.mk 3 [1, 2] : SmoothingFilter ℚ).addValue
          7).1.dataBuffer =
        (([1, 2] : List ℚ) ++ [7]).drop ((([1, 2] : List ℚ) ++ [7]).length - 3) ∧
      ((SmoothingFilter.mk 3 [1, 2] : SmoothingFilter ℚ).addValue 7).2 =
        (((SmoothingFilter.mk 3 [1, 2] : SmoothingFilter ℚ).addValue
            7).1.dataBuffer).sum /
          ((((SmoothingFilter.mk 3 [1, 2] : SmoothingFilter ℚ).addValue
              7).1.dataBuffer).length : ℚ)) ∧
     (SmoothingFilter.mk 5 [9] : SmoothingFilter ℚ).getSmoothedValue = 9) ∧
    ((SmoothingFilter.mk 3 [] : SmoothingFilter ℚ).run [1, 2, 3, 4]).2 =
      [1, 3 / 2, 2, 3] :=
  ⟨⟨smoothingFilter_addValue_spec.1 (SmoothingFilter.mk 3 [1, 2]) 7
      (by norm_num) (by norm_num),
    smoothingFilter_addValue_spec.2.1 5 9⟩,
   smoothingFilter_addValue_spec.2.2⟩

/-- C4: `startTest` on a test that is not calibrated throws
`Test must be calibrated first`; the throw happens before any assignment, so
the state (`isRunning`, `startTime`, `results`) is the unchanged input and
the test stays idle.  On a calibrated test `startTest` succeeds, setting the
running flag, the start time and clearing stale results; the inherited
`startTest` of both test subclasses fails the same way. -/
theorem startTest_requires_calibration {α ρ : Type} [LinearOrderedField α] :
    (∀ (t : BaseAthleticTest α ρ) (now : α),
      (t.isCalibrated = false →
        t.startTest now = Except.error "Test must be calibrated first") ∧
      (t.isCalibrated = true →
        t.startTest now = Except.ok
          { t with isRunning := true, startTime := some now,
                   results := none })) ∧
    (∀ (b : BroadJumpTest α) (now : α), b.isCalibrated = false →
      b.startTest now = Except.error "Test must be calibrated first") ∧
    (∀ (s : SprintTest α) (now : α), s.isCalibrated = false →
      s.startTest now = Except.error "Test must be calibrated first") := by
  refine ⟨fun t now => ⟨fun h => ?_, fun h => ?_⟩,
          fun b now h => ?_, fun s now h => ?_⟩
  · simp [BaseAthleticTest.startTest, h]
  · simp [BaseAthleticTest.startTest, h]
  · simp [BroadJumpTest.startTest, BaseAthleticTest.startTest, h, Except.map]
  · simp [SprintTest.startTest, BaseAthleticTest.startTest, h, Except.map]

/-- C4, instantiated at an uncalibrated and a calibrated base state. -/
theorem startTest_requires_calibration_witness :
    baseUncal.startTest 5 = Except.error "Test must be calibrated first" ∧
    baseCal.startTest 5 = Except.ok
      { baseCal with isRunning := true, startTime := some 5,
                     results := none } :=
  ⟨((startTest_requires_calibration (α := ℚ) (ρ := Unit)).1 baseUncal 5).1
     rfl,
   ((startTest_requires_calibration (α := ℚ) (ρ := Unit)).1 baseCal 5).2
     rfl⟩

/-- C5: `resetTest` of the sprint and the broad-jump test clears the run
state (running flag, start time, results), the recorded crossing times and
the next-crossing index, the smoothing and acceleration buffers, the pending
finalization timer and every tracked position of the `EventDetector`, while
the `isCalibrated` flag and the whole `LinesCalibrator` state (points, meter
values, computed parameters) are unchanged. -/
theorem resetTest_clears_run_state {α : Type} [LinearOrderedField α] :
    (∀ s : SprintTest α,
      s.resetTest.isRunning = false ∧
      s.resetTest.startTime = none ∧
      s.resetTest.results = none ∧
      s.resetTest.crossingTimes = { t0 := none, t15 := none, t30 := none } ∧
      s.resetTest.nextCrossingIndex = 0 ∧
      s.resetTest.speedSmoother.positionFilter.dataBuffer = [] ∧
      s.resetTest.speedSmoother.speedFilter.dataBuffer = [] ∧
      s.resetTest.speedSmoother.previousPosition = none ∧
      s.resetTest.speedSmoother.previousTime = none ∧
      s.resetTest.speedSmoother.maxSpeed = 0 ∧
      s.resetTest.speedSmoother.speedHistory = [] ∧
      s.resetTest.accelerationCalculator.speedHistory = [] ∧
      s.resetTest.eventDetector.previousPositions = [] ∧
      s.resetTest.isCalibrated = s.isCalibrated ∧
      s.resetTest.linesCalibrator = s.linesCalibrator ∧
      s.resetTest.speedSmoother.positionFilter.windowSize =
        s.speedSmoother.positionFilter.windowSize ∧
      s.resetTest.accelerationCalculator.windowSize =
        s.accelerationCalculator.windowSize) ∧
    (∀ b : BroadJumpTest α,
      b.resetTest.isRunning = false ∧
      b.resetTest.startTime = none ∧
      b.resetTest.results = none ∧
      b.resetTest.landingDetected = false ∧
      b.resetTest.landingTime = none ∧
      b.resetTest.takeoffPosition = none ∧
      b.resetTest.landingPosition = none ∧
      b.resetTest.finalizationTimer = none ∧
      b.resetTest.eventDetector.previousPositions = [] ∧
      b.resetTest.isCalibrated = b.isCalibrated ∧
      b.resetTest.linesCalibrator = b.linesCalibrator) := by
  constructor
  · intro s
    refine ⟨rfl, rfl, rfl, rfl, rfl, rfl, rfl, rfl, rfl, rfl, rfl, rfl,
      rfl, rfl, rfl, rfl, rfl⟩
  · intro b
    refine ⟨rfl, rfl, rfl, rfl, rfl, rfl, rfl, rfl, rfl, rfl, rfl⟩

/-- C10: with computed calibration parameters, `getDistanceInMeters` returns
a value that is non-negative and symmetric in its two arguments; without
parameters it returns null. -/
theorem getDistanceInMeters_symm_nonneg {α : Type} [LinearOrderedField α]
    (c : LinesCalibrator α) (p q : Point2 α) :
    (∀ params, c.calibrationParams = some params →
      ∃ d, c.getDistanceInMeters p q = some d ∧ 0 ≤ d ∧
        c.getDistanceInMeters q p = some d) ∧
    (c.calibrationParams = none → c.getDistanceInMeters p q = none) := by
  constructor
  · intro params h
    simp only [LinesCalibrator.getDistanceInMeters,
      LinesCalibrator.projectPxToM, h]
    exact ⟨_, rfl, abs_nonneg _, by rw [abs_sub_comm]⟩
  · intro h
    simp only [LinesCalibrator.getDistanceInMeters, h]

/-- C10, instantiated at the concrete calibration `calW` and the
parameterless `calNone`. -/
theorem getDistanceInMeters_symm_nonneg_witness :
    (∃ d, calW.getDistanceInMeters ⟨0, 0⟩ ⟨50, 7⟩ = some d ∧ 0 ≤ d ∧
      calW.getDistanceInMeters ⟨50, 7⟩ ⟨0, 0⟩ = some d) ∧
    calNone.getDistanceInMeters ⟨0, 0⟩ ⟨50, 7⟩ = none :=
  ⟨(getDistanceInMeters_symm_nonneg calW ⟨0, 0⟩ ⟨50, 7⟩).1 _ rfl,
   (getDistanceInMeters_symm_nonneg calNone ⟨0, 0⟩ ⟨50, 7⟩).2 rfl⟩

/-- C3: when the sprint state machine finalizes with recorded relative
crossing times `a`, `b`, `c` (milliseconds), the result has
`split0to15 = (b - a) / 1000` s, `split15to30 = (c - b) / 1000` s,
`totalTime = (c - a) / 1000` s, `avgSpeedTotal = 30 / totalTime` m/s, per
split accelerations `15 / split²`, the smoothed maximum speed and the full
speed history, and the test stops. -/
theorem finalizeSprint_splits {α : Type} [LinearOrderedField α]
    (t : SprintTest α) (a b c : α)
    (h : t.crossingTimes = { t0 := some a, t15 := some b, t30 := some c }) :
    t.finalizeSprint.results = some
      { split0to15 := (b - a) / 1000,
        split15to30 := (c - b) / 1000,
        totalTime := (c - a) / 1000,
        avgSpeedTotal := 30 / ((c - a) / 1000),
        maxSpeed := t.speedSmoother.maxSpeed,
        avgAccel0to15 := 15 / (((b - a) / 1000) * ((b - a) / 1000)),
        avgAccel15to30 := 15 / (((c - b) / 1000) * ((c - b) / 1000)),
        crossingTimes := t.crossingTimes,
        speedHistory := t.speedSmoother.speedHistory } ∧
    t.finalizeSprint.isRunning = false := by
  constructor
  · simp only [SprintTest.finalizeSprint, h, Option.getD_some,
      SpeedSmoother.getMaxSpeed, SpeedSmoother.getSpeedHistory, sub_div]
  · rfl

/-- C3, instantiated at `t0 = 0 ms`, `t15 = 2000 ms`, `t30 = 3800 ms`:
splits `2.0 s` and `1.8 s`, total `3.8 s`, average speed `30 / 3.8 m/s`. -/
theorem finalizeSprint_splits_witness :
    sprintW.finalizeSprint.results = some
      { split0to15 := 2, split15to30 := 9 / 5, totalTime := 19 / 5,
        avgSpeedTotal := 150 / 19, maxSpeed := 0,
        avgAccel0to15 := 15 / 4, avgAccel15to30 := 125 / 27,
        crossingTimes := { t0 := some 0, t15 := some 2000,
                           t30 := some 3800 },
        speedHistory := [] } ∧
    sprintW.finalizeSprint.isRunning = false := by
  have h := finalizeSprint_splits sprintW 0 2000 3800 rfl
  refine ⟨?_, h.2⟩
  rw [h.1]
  norm_num [sprintW, SpeedSmoother.init, SprintResults.mk.injEq]

/-- A crossing reported by `checkLineCrossing` has its interpolation
parameter in `[0, 1]` (it is accepted only under that guard). -/
theorem checkLineCrossing_bounds {α : Type} [LinearOrderedField α]
    (p1 p2 : Point2 α) (line : Line2 α)
    (h : (EventDetector.checkLineCrossing p1 p2 line).crossed = true) :
    0 ≤ (EventDetector.checkLineCrossing p1 p2 line).tFraction ∧
    (EventDetector.checkLineCrossing p1 p2 line).tFraction ≤ 1 := by
  simp only [EventDetector.checkLineCrossing] at h ⊢
  split_ifs at h ⊢ with h1 h2
  all_goals simp_all

/-- C9: every crossing result of `detectLineCrossing`,
`detectVerticalLineCrossing` and `detectHorizontalLineCrossing` has
`tFraction ∈ [0, 1]`; hence for `prevTime ≤ currTime` the interpolated
crossing time lies in `[prevTime, currTime]`, and the crossing position is
the convex combination of the two sample positions at that fraction, i.e. it
lies on the segment between them. -/
theorem crossing_tFraction_unit_interval {α : Type} [LinearOrderedField α] :
    (∀ (prevPos currPos : Point2 α) (line : Line2 α)
       (prevTime currTime : α) (r : LineCrossing α),
       EventDetector.detectLineCrossing prevPos currPos line prevTime
         currTime = some r →
       (0 ≤ r.tFraction ∧ r.tFraction ≤ 1) ∧
       (prevTime ≤ currTime → prevTime ≤ r.time ∧ r.time ≤ currTime) ∧
       r.position.x = prevPos.x + (currPos.x - prevPos.x) * r.tFraction ∧
       r.position.y = prevPos.y + (currPos.y - prevPos.y) * r.tFraction) ∧
    (∀ (prevPos currPos : Point2 α) (lineX prevTime currTime : α)
       (r : AxisCrossing α),
       EventDetector.detectVerticalLineCrossing prevPos currPos lineX
         prevTime currTime = some r →
       (0 ≤ r.tFraction ∧ r.tFraction ≤ 1) ∧
       (prevTime ≤ currTime → prevTime ≤ r.time ∧ r.time ≤ currTime) ∧
       r.position.x = prevPos.x + (currPos.x - prevPos.x) * r.tFraction ∧
       r.position.y = prevPos.y + (currPos.y - prevPos.y) * r.tFraction) ∧
    (∀ (prevPos currPos : Point2 α) (lineY prevTime currTime : α)
       (r : AxisCrossing α),
       EventDetector.detectHorizontalLineCrossing prevPos currPos lineY
         prevTime currTime = some r →
       (0 ≤ r.tFraction ∧ r.tFraction ≤ 1) ∧
       (prevTime ≤ currTime → prevTime ≤ r.time ∧ r.time ≤ currTime) ∧
       r.position.x = prevPos.x + (currPos.x - prevPos.x) * r.tFraction ∧
       r.position.y = prevPos.y + (currPos.y - prevPos.y) * r.tFraction) := by
  refine ⟨?_, ?_, ?_⟩
  · intro prevPos currPos line pt ct r h
    unfold EventDetector.detectLineCrossing at h
    by_cases hc : (EventDetector.checkLineCrossing prevPos currPos
      line).crossed = false
    · rw [if_pos hc] at h
      exact absurd h (by simp)
    · rw [if_neg hc] at h
      have hb := checkLineCrossing_bounds prevPos currPos line
        (by simpa using hc)
      have hr := Option.some.inj h
      subst hr
      refine ⟨hb, fun hle => ⟨?_, ?_⟩, rfl, rfl⟩
      · have := mul_nonneg (sub_nonneg.mpr hle) hb.1
        simp only
        linarith
      · have := mul_le_mul_of_nonneg_left hb.2 (sub_nonneg.mpr hle)
        simp only
        linarith
  · intro prevPos currPos lineX pt ct r h
    simp only [EventDetector.detectVerticalLineCrossing] at h
    by_cases hside : decide (prevPos.x < lineX) = decide (currPos.x < lineX)
    · rw [if_pos hside] at h
      exact absurd h (by simp)
    · rw [if_neg hside] at h
      by_cases hdx : |currPos.x - prevPos.x| < 1 / 10 ^ 10
      · rw [if_pos hdx] at h
        exact absurd h (by simp)
      · rw [if_neg hdx] at h
        by_cases hfr : (lineX - prevPos.x) / (currPos.x - prevPos.x) < 0 ∨
            1 < (lineX - prevPos.x) / (currPos.x - prevPos.x)
        · rw [if_pos hfr] at h
          exact absurd h (by simp)
        · rw [if_neg hfr] at h
          push_neg at hfr
          have hdx0 : currPos.x - prevPos.x ≠ 0 := by
            intro hz
            rw [hz] at hdx
            exact hdx (by rw [abs_zero]; positivity)
          have hr := Option.some.inj h
          subst hr
          refine ⟨⟨hfr.1, hfr.2⟩, fun hle => ⟨?_, ?_⟩, ?_, rfl⟩
          · have := mul_nonneg (sub_nonneg.mpr hle) hfr.1
            show pt ≤ pt + (ct - pt) *
              ((lineX - prevPos.x) / (currPos.x - prevPos.x))
            linarith
          · have := mul_le_mul_of_nonneg_left hfr.2 (sub_nonneg.mpr hle)
            show pt + (ct - pt) *
              ((lineX - prevPos.x) / (currPos.x - prevPos.x)) ≤ ct
            linarith
          · show lineX = prevPos.x + (currPos.x - prevPos.x) *
              ((lineX - prevPos.x) / (currPos.x - prevPos.x))
            field_simp
  · intro prevPos currPos lineY pt ct r h
    simp only [EventDetector.detectHorizontalLineCrossing] at h
    by_cases hside : decide (prevPos.y < lineY) = decide (currPos.y < lineY)
    · rw [if_pos hside] at h
      exact absurd h (by simp)
    · rw [if_neg hside] at h
      by_cases hdy : |currPos.y - prevPos.y| < 1 / 10 ^ 10
      · rw [if_pos hdy] at h
        exact absurd h (by simp)
      · rw [if_neg hdy] at h
        by_cases hfr : (lineY - prevPos.y) / (currPos.y - prevPos.y) < 0 ∨
            1 < (lineY - prevPos.y) / (currPos.y - prevPos.y)
        · rw [if_pos hfr] at h
          exact absurd h (by simp)
        · rw [if_neg hfr] at h
          push_neg at hfr
          have hdy0 : currPos.y - prevPos.y ≠ 0 := by
            intro hz
            rw [hz] at hdy
            exact hdy (by rw [abs_zero]; positivity)
          have hr := Option.some.inj h
          subst hr
          refine ⟨⟨hfr.1, hfr.2⟩, fun hle => ⟨?_, ?_⟩, rfl, ?_⟩
          · have := mul_nonneg (sub_nonneg.mpr hle) hfr.1
            show pt ≤ pt + (ct - pt) *
              ((lineY - prevPos.y) / (currPos.y - prevPos.y))
            linarith
          · have := mul_le_mul_of_nonneg_left hfr.2 (sub_nonneg.mpr hle)
            show pt + (ct - pt) *
              ((lineY - prevPos.y) / (currPos.y - prevPos.y)) ≤ ct
            linarith
          · show lineY = prevPos.y + (currPos.y - prevPos.y) *
              ((lineY - prevPos.y) / (currPos.y - prevPos.y))
            field_simp

/-- C9, instantiated on one concrete crossing per detector. -/
theorem crossing_tFraction_unit_interval_witness :
    (EventDetector.detectLineCrossing (α := ℚ) ⟨5, 0⟩ ⟨15, 10⟩
        ⟨⟨10, 0⟩, ⟨10, 100⟩⟩ 0 10 =
        some { crossed := true, time := 5, position := ⟨10, 5⟩,
               tFraction := 1 / 2 } ∧
      (0 : ℚ) ≤ 1 / 2 ∧ (1 / 2 : ℚ) ≤ 1 ∧ (0 : ℚ) ≤ 5 ∧ (5 : ℚ) ≤ 10) ∧
    (EventDetector.detectVerticalLineCrossing (α := ℚ) ⟨5, 0⟩ ⟨15, 10⟩
        10 0 10 =
        some { crossed := true, time := 5, position := ⟨10, 5⟩,
               tFraction := 1 / 2, direction := "right" } ∧
      (0 : ℚ) ≤ 1 / 2 ∧ (1 / 2 : ℚ) ≤ 1 ∧ (0 : ℚ) ≤ 5 ∧ (5 : ℚ) ≤ 10) ∧
    (EventDetector.detectHorizontalLineCrossing (α := ℚ) ⟨0, 5⟩ ⟨10, 15⟩
        10 0 10 =
        some { crossed := true, time := 5, position := ⟨5, 10⟩,
               tFraction := 1 / 2, direction := "down" } ∧
      (0 : ℚ) ≤ 1 / 2 ∧ (1 / 2 : ℚ) ≤ 1 ∧ (0 : ℚ) ≤ 5 ∧ (5 : ℚ) ≤ 10) := by
  have h1 : EventDetector.detectLineCrossing (α := ℚ) ⟨5, 0⟩ ⟨15, 10⟩
      ⟨⟨10, 0⟩, ⟨10, 100⟩⟩ 0 10 =
      some { crossed := true, time := 5, position := ⟨10, 5⟩,
             tFraction := 1 / 2 } := by
    norm_num [EventDetector.detectLineCrossing, EventDetector.checkLineCrossing,
      EventDetector.lineSegmentIntersection, LineCrossing.mk.injEq,
      Point2.mk.injEq]
  have h2 : EventDetector.detectVerticalLineCrossing (α := ℚ) ⟨5, 0⟩
      ⟨15, 10⟩ 10 0 10 =
      some { crossed := true, time := 5, position := ⟨10, 5⟩,
             tFraction := 1 / 2, direction := "right" } := by
    norm_num [EventDetector.detectVerticalLineCrossing, AxisCrossing.mk.injEq,
      Point2.mk.injEq]
  have h3 : EventDetector.detectHorizontalLineCrossing (α := ℚ) ⟨0, 5⟩
      ⟨10, 15⟩ 10 0 10 =
      some { crossed := true, time := 5, position := ⟨5, 10⟩,
             tFraction := 1 / 2, direction := "down" } := by
    norm_num [EventDetector.detectHorizontalLineCrossing, AxisCrossing.mk.injEq,
      Point2.mk.injEq]
  have c1 := crossing_tFraction_unit_interval.1 ⟨5, 0⟩ ⟨15, 10⟩
    ⟨⟨10, 0⟩, ⟨10, 100⟩⟩ 0 10 _ h1
  have c2 := crossing_tFraction_unit_interval.2.1 ⟨5, 0⟩ ⟨15, 10⟩ 10 0 10 _ h2
  have c3 := crossing_tFraction_unit_interval.2.2 ⟨0, 5⟩ ⟨10, 15⟩ 10 0 10 _ h3
  exact ⟨⟨h1, c1.1.1, c1.1.2, (c1.2.1 (by norm_num)).1,
          (c1.2.1 (by norm_num)).2⟩,
        ⟨h2, c2.1.1, c2.1.2, (c2.2.1 (by norm_num)).1,
          (c2.2.1 (by norm_num)).2⟩,
        ⟨h3, c3.1.1, c3.1.2, (c3.2.1 (by norm_num)).1,
          (c3.2.1 (by norm_num)).2⟩⟩

/-- C2: a calibration completed from at least two collected points whose
first and last points `p1 ≠ p2` carry the meter values `m1` and `m2`
projects the exact first point back to `m1` and the exact last point back to
`m2` — exactly, in the real-number model. -/
theorem calibration_projects_endpoints (c : LinesCalibrator ℝ)
    (p1 p2 : Point2 ℝ) (m1 m2 : ℝ)
    (hp1 : c.calibrationPoints.head? = some p1)
    (hp2 : c.calibrationPoints.getLast? = some p2)
    (hm1 : c.meterValues.head? = some m1)
    (hm2 : c.meterValues.getLast? = some m2)
    (hlen : 2 ≤ c.calibrationPoints.length)
    (hne : p1 ≠ p2) :
    c.calculateCalibrationParams.projectPxToM p1 = some m1 ∧
    c.calculateCalibrationParams.projectPxToM p2 = some m2 := by
  have hxy : p1.x ≠ p2.x ∨ p1.y ≠ p2.y := by
    by_contra hcon
    push_neg at hcon
    refine hne ?_
    cases p1
    cases p2
    simp_all
  have hS : 0 < (p2.x - p1.x) * (p2.x - p1.x) +
      (p2.y - p1.y) * (p2.y - p1.y) := by
    rcases hxy with hx | hy
    · have h1 : 0 < (p2.x - p1.x) * (p2.x - p1.x) :=
        mul_self_pos.mpr (sub_ne_zero.mpr (Ne.symm hx))
      nlinarith [mul_self_nonneg (p2.y - p1.y)]
    · have h1 : 0 < (p2.y - p1.y) * (p2.y - p1.y) :=
        mul_self_pos.mpr (sub_ne_zero.mpr (Ne.symm hy))
      nlinarith [mul_self_nonneg (p2.x - p1.x)]
  have hL : 0 < Real.sqrt ((p2.x - p1.x) * (p2.x - p1.x) +
      (p2.y - p1.y) * (p2.y - p1.y)) := Real.sqrt_pos.mpr hS
  have hif : ¬ c.calibrationPoints.length < 2 := by omega
  have key : (p2.x - p1.x) * ((p2.x - p1.x) / Real.sqrt
        ((p2.x - p1.x) * (p2.x - p1.x) + (p2.y - p1.y) * (p2.y - p1.y))) +
      (p2.y - p1.y) * ((p2.y - p1.y) / Real.sqrt
        ((p2.x - p1.x) * (p2.x - p1.x) + (p2.y - p1.y) * (p2.y - p1.y))) =
      Real.sqrt ((p2.x - p1.x) * (p2.x - p1.x) +
        (p2.y - p1.y) * (p2.y - p1.y)) := by
    field_simp
  simp only [LinesCalibrator.calculateCalibrationParams, if_neg hif,
    hp1, hp2, hm1, hm2, LinesCalibrator.projectPxToM]
  constructor
  · norm_num
  · rw [key, mul_comm, div_mul_cancel₀ _ hL.ne']
    norm_num

/-- C2, instantiated at the clicks `(0, 0) ↦ 0 m` and `(100, 0) ↦ 3 m`. -/
theorem calibration_projects_endpoints_witness :
    calR.calculateCalibrationParams.projectPxToM ⟨0, 0⟩ = some 0 ∧
    calR.calculateCalibrationParams.projectPxToM ⟨100, 0⟩ = some 3 :=
  calibration_projects_endpoints calR ⟨0, 0⟩ ⟨100, 0⟩ 0 3 rfl rfl rfl rfl
    (by norm_num [calR])
    (by intro h; injection h with hx hy; exact absurd hx (by norm_num))

/-- C6: when a previous sample exists and the new timestamp minus the
previous one is `≤ 0`, the instantaneous speed computed by `addPosition` is
`0` — no division by the non-positive elapsed time happens — and the speed
filter is fed exactly the sample `0`. -/
theorem speedSmoother_nonpos_dt_zero (s : SpeedSmoother ℝ)
    (position : Point2 ℝ) (timestamp prevTime : ℝ)
    (hprev : s.previousTime = some prevTime)
    (hdt : timestamp - prevTime ≤ 0) :
    (∀ smoothedPosition : Point2 ℝ,
      s.instSpeed smoothedPosition timestamp = 0) ∧
    (s.addPosition position timestamp).1.speedFilter =
      (s.speedFilter.addValue 0).1 ∧
    (s.addPosition position timestamp).2 = (s.speedFilter.addValue 0).2 := by
  have hzero : ∀ smoothedPosition : Point2 ℝ,
      s.instSpeed smoothedPosition timestamp = 0 := by
    intro sp
    simp only [SpeedSmoother.instSpeed, hprev]
    cases s.previousPosition with
    | none => rfl
    | some pp =>
        simp only
        split_ifs with h1 h2
        · exact absurd h2 (by linarith)
        · rfl
        · rfl
  refine ⟨hzero, ?_, ?_⟩ <;>
    simp only [SpeedSmoother.addPosition, hzero]

/-- C6, instantiated at a smoother whose previous sample is at `t = 5` fed a
sample at `t = 3`. -/
theorem speedSmoother_nonpos_dt_zero_witness :
    smootherW.instSpeed ⟨7, 8⟩ 3 = 0 ∧
    (smootherW.addPosition ⟨1, 2⟩ 3).1.speedFilter =
      (smootherW.speedFilter.addValue 0).1 ∧
    (smootherW.addPosition ⟨1, 2⟩ 3).2 =
      (smootherW.speedFilter.addValue 0).2 := by
  have h := speedSmoother_nonpos_dt_zero smootherW ⟨1, 2⟩ 3 5 rfl
    (by norm_num)
  exact ⟨h.1 ⟨7, 8⟩, h.2.1, h.2.2⟩

/-- The two ankle landmarks of `ankleFrame` resolve through
`getLandmarkByName` (index 27). -/
theorem ankleFrame_left (x y : ℚ) :
    PoseDetector.getLandmarkByName (ankleFrame x y) "left_ankle" =
      some { x := x, y := y, visibility := some 1 } := by
  simp [PoseDetector.getLandmarkByName, PoseDetector.landmarkIndices,
    ankleFrame]

/-- The right ankle of `ankleFrame` resolves through `getLandmarkByName`
(index 28). -/
theorem ankleFrame_right (x y : ℚ) :
    PoseDetector.getLandmarkByName (ankleFrame x y) "right_ankle" =
      some { x := x, y := y, visibility := some 1 } := by
  simp [PoseDetector.getLandmarkByName, PoseDetector.landmarkIndices,
    ankleFrame]

/-- The frame at `t = 500 ms` only records the tracked position (pixel
`(0, 850)`, on the ground): no takeoff yet. -/
theorem jumpRunB_eq : jumpRunB = { jumpRunA with eventDetector :=
    { previousPositions :=
        [("jumper", { position := ⟨0, 850⟩, timestamp := 500 })] } } := by
  simp [jumpRunB, jumpRunA, jumpRun0, BroadJumpTest.processFrame,
    ankleFrame_left, ankleFrame_right,
    PoseDetector.validateLandmark, EventDetector.trackPosition,
    EventDetector.getPos, EventDetector.setPos, scaleW, calW]
  norm_num

/-- The frame at `t = 1000 ms` (pixel `(0, 790)`, above the ground level
`800`, rising at `60 ≥ 2`) triggers the takeoff detector. -/
theorem jumpRunC_eq : jumpRunC = { jumpRunA with
    eventDetector := { previousPositions :=
      [("jumper", { position := ⟨0, 790⟩, timestamp := 1000 })] },
    takeoffPosition := some ⟨0, 790⟩ } := by
  have : jumpRunC = jumpRunB.processFrame
      (some (ankleFrame 0 (79 / 100))) 1000 scaleW := rfl
  rw [this, jumpRunB_eq]
  simp [jumpRunA, jumpRun0, BroadJumpTest.processFrame,
    ankleFrame_left, ankleFrame_right,
    PoseDetector.validateLandmark, EventDetector.trackPosition,
    EventDetector.getPos, EventDetector.setPos,
    EventDetector.detectTakeoff, EventDetector.detectLanding, scaleW, calW]
  norm_num

/-- The frame at `t = 2000 ms` (pixel `(100, 810)`, back below the ground
level, descending at `20 ≥ 2`) triggers the landing detector and arms the
finalization timer. -/
theorem jumpRunD_eq : jumpRunD = { jumpRunA with
    eventDetector := { previousPositions :=
      [("jumper", { position := ⟨100, 810⟩, timestamp := 2000 })] },
    takeoffPosition := some ⟨0, 790⟩,
    landingDetected := true,
    landingTime := some 2000,
    landingPosition := some ⟨100, 810⟩,
    finalizationTimer := some scaleW } := by
  have : jumpRunD = jumpRunC.processFrame
      (some (ankleFrame (1 / 10) (81 / 100))) 2000 scaleW := rfl
  rw [this, jumpRunC_eq]
  simp [jumpRunA, jumpRun0, BroadJumpTest.processFrame,
    ankleFrame_left, ankleFrame_right,
    PoseDetector.validateLandmark, EventDetector.trackPosition,
    EventDetector.getPos, EventDetector.setPos,
    EventDetector.detectTakeoff, EventDetector.detectLanding, scaleW, calW]
  norm_num

/-- C1, counterexample: a broad-jump run started at `t = 0` whose takeoff
event is detected at the frame of `t = 1000 ms` and whose landing is at
`t = 2000 ms`, with along-line distance `3 m`.  The flight time from the
takeoff event to the landing event is `1 s`, so the claimed speed would be
`3 m/s`; the code computes `jumpTime = landingTime - startTime = 2000 ms`
and reports `1.5 m/s`. -/
theorem broadJump_flightTime_counterexample :
    jumpRun0.startTest 0 = Except.ok jumpRunA ∧
    jumpRunB.takeoffPosition = none ∧
    jumpRunC.takeoffPosition = some ⟨0, 790⟩ ∧
    jumpRunD.landingTime = some 2000 ∧
    jumpRunD.landingPosition = some ⟨100, 810⟩ ∧
    jumpRunD.finalizationTimer = some scaleW ∧
    jumpRunD.linesCalibrator.getDistanceInMeters ⟨0, 790⟩ ⟨100, 810⟩ =
      some 3 ∧
    ((jumpRunD.finalizeMeasurement scaleW).results).map
      BroadJumpResults.takeoffSpeed = some (3 / 2) ∧
    (3 : ℚ) / ((2000 - 1000) / 1000) = 3 ∧
    (3 : ℚ) / 2 ≠ 3 := by
  have hd : jumpRunD.linesCalibrator.getDistanceInMeters ⟨0, 790⟩
      ⟨100, 810⟩ = some 3 := by
    rw [jumpRunD_eq]
    norm_num [LinesCalibrator.getDistanceInMeters,
      LinesCalibrator.projectPxToM, jumpRunA, jumpRun0, calW]
  refine ⟨?_, ?_, ?_, ?_, ?_, ?_, hd, ?_, by norm_num, by norm_num⟩
  · simp [jumpRun0, jumpRunA, BroadJumpTest.startTest,
      BaseAthleticTest.startTest, Except.map]
  · rw [jumpRunB_eq]; rfl
  · rw [jumpRunC_eq]
  · rw [jumpRunD_eq]
  · rw [jumpRunD_eq]
  · rw [jumpRunD_eq]
  · have hfin : (jumpRunD.finalizeMeasurement scaleW).results = some
        { distance := 3, takeoffSpeed := 3 / ((2000 - 0) / 1000),
          jumpTime := 2000 - 0, takeoffPosition := ⟨0, 790⟩,
          landingPosition := ⟨100, 810⟩ } := by
      have htp : jumpRunD.takeoffPosition = some ⟨0, 790⟩ := by
        rw [jumpRunD_eq]
      have hlp : jumpRunD.landingPosition = some ⟨100, 810⟩ := by
        rw [jumpRunD_eq]
      have hlt : jumpRunD.landingTime = some 2000 := by
        rw [jumpRunD_eq]
      have hst : jumpRunD.startTime = some 0 := by
        rw [jumpRunD_eq]; rfl
      simp only [BroadJumpTest.finalizeMeasurement, htp, hlp, hd, hlt, hst,
        Option.getD_some]
    rw [hfin]
    norm_num

/-- C1, amended: when takeoff and landing positions, the landing time and
the start time are recorded and the calibrated along-line distance between
takeoff and landing is `d`, finalization reports
`takeoffSpeed = d / ((landingTime - startTime) / 1000)` — the elapsed time
is measured from the `startTest` call, not from the takeoff event — and
stops the test. -/
theorem broadJump_finalize_time_from_start {α : Type} [LinearOrderedField α]
    (t : BroadJumpTest α) (scale : Scale α)
    (takeoffPos landingPos : Point2 α) (lt st d : α)
    (htp : t.takeoffPosition = some takeoffPos)
    (hlp : t.landingPosition = some landingPos)
    (hlt : t.landingTime = some lt)
    (hst : t.startTime = some st)
    (hd : t.linesCalibrator.getDistanceInMeters takeoffPos landingPos =
      some d) :
    (t.finalizeMeasurement scale).results = some
      { distance := d, takeoffSpeed := d / ((lt - st) / 1000),
        jumpTime := lt - st, takeoffPosition := takeoffPos,
        landingPosition := landingPos } ∧
    (t.finalizeMeasurement scale).isRunning = false := by
  refine ⟨?_, ?_⟩ <;>
    simp only [BroadJumpTest.finalizeMeasurement, htp, hlp, hd, hlt, hst,
      Option.getD_some]

/-- C1, amended claim instantiated at the state reached by the
counterexample run. -/
theorem broadJump_finalize_time_from_start_witness :
    (jumpRunD.finalizeMeasurement scaleW).results = some
      { distance := 3, takeoffSpeed := 3 / ((2000 - 0) / 1000),
        jumpTime := 2000 - 0, takeoffPosition := ⟨0, 790⟩,
        landingPosition := ⟨100, 810⟩ } ∧
    (jumpRunD.finalizeMeasurement scaleW).isRunning = false :=
  broadJump_finalize_time_from_start jumpRunD scaleW ⟨0, 790⟩ ⟨100, 810⟩
    2000 0 3
    (by rw [jumpRunD_eq]) (by rw [jumpRunD_eq]) (by rw [jumpRunD_eq])
    (by rw [jumpRunD_eq]; rfl)
    (by rw [jumpRunD_eq]
        norm_num [LinesCalibrator.getDistanceInMeters,
          LinesCalibrator.projectPxToM, jumpRunA, jumpRun0, calW])
